import Mathlib

/-!
Verification of the redis-sentinel-service-controller (src/main.rs) against
its natural-language specification.

The Rust program is shallowly embedded: pure parsing code becomes Lean
functions over `String`/`List String`; the effectful loop bodies
(subscription handler, poll iteration, bootstrap, reconciler loop) become
functions from their external inputs (connection outcomes, query replies,
received messages) to an explicit record of their observable effects
(published addresses, log events, sleeps, spawns, panics).
-/

namespace SentinelController

/-- Rust `char::is_ascii_whitespace`: space, tab, newline, form feed,
carriage return. -/
def isAsciiWhitespace (c : Char) : Bool :=
  c = ' ' || c = '\t' || c = '\n' || c = '\x0c' || c = '\r'

/-- Helper for `splitAsciiWhitespace`: walks the character list, `acc` holds
the (reversed) characters of the token currently being read. -/
def splitWsAux : List Char → List Char → List String
  | [], acc => if acc.isEmpty then [] else [String.mk acc.reverse]
  | c :: rest, acc =>
    if isAsciiWhitespace c then
      if acc.isEmpty then splitWsAux rest []
      else String.mk acc.reverse :: splitWsAux rest []
    else splitWsAux rest (c :: acc)

/-- Rust `str::split_ascii_whitespace`: maximal runs of
non-whitespace characters, with no empty tokens. -/
def splitAsciiWhitespace (s : String) : List String :=
  splitWsAux s.data []

/-- The numeric value of an ASCII decimal digit, `none` for any other
character (Rust `char::to_digit(10)`). -/
def digitVal? (c : Char) : Option Nat :=
  if '0' ≤ c ∧ c ≤ '9' then some (c.toNat - '0'.toNat) else none

/-- Accumulate decimal digits left to right; fails on a non-digit. -/
def parseNatAux : List Char → Nat → Option Nat
  | [], acc => some acc
  | c :: rest, acc =>
    match digitVal? c with
    | some d => parseNatAux rest (acc * 10 + d)
    | none => none

/-- Rust `str::parse` for an unsigned integer type whose values are
`< bound`: an optional leading `+`, then a nonempty run of ASCII decimal
digits, rejecting values outside the type. Rust checks overflow at every
accumulation step, but with digit-only input the intermediate values are
monotone, so that is equivalent to the final bound check used here. -/
def parse_uint (bound : Nat) (s : String) : Option Nat :=
  let cs : List Char :=
    match s.data with
    | '+' :: rest => rest
    | cs => cs
  match cs with
  | [] => none
  | _ :: _ =>
    match parseNatAux cs 0 with
    | some n => if n < bound then some n else none
    | none => none

/-- Rust `str::parse` at type `u16`. -/
def parse_u16 (s : String) : Option Nat := parse_uint 65536 s

/-- Rust `str::parse` at type `u64` (used for the poll interval in seconds). -/
def parse_u64 (s : String) : Option Nat := parse_uint 18446744073709551616 s

/-- Rust `type RedisAddr = (String, u16);` — ports are kept as `Nat`; every
producing path goes through `parse_u16`, which bounds them below 2^16. -/
def RedisAddr := String × Nat

instance : DecidableEq RedisAddr := instDecidableEqProd

/-- The `Error` enum of main.rs. The `RedisErr` payload (a transport-level
`RedisError`) and the `InvalidResponse` message are carried as strings. -/
inductive Error
  | RedisErr (err : String)
  | InvalidResponse (msg : String)
deriving DecidableEq

instance {ε α : Type} [DecidableEq ε] [DecidableEq α] : DecidableEq (Except ε α) :=
  fun x y =>
  match x, y with
  | .ok a, .ok b =>
    if h : a = b then isTrue (by rw [h]) else isFalse (fun hc => h (Except.ok.inj hc))
  | .error a, .error b =>
    if h : a = b then isTrue (by rw [h]) else isFalse (fun hc => h (Except.error.inj hc))
  | .ok _, .error _ => isFalse (fun hc => Except.noConfusion hc)
  | .error _, .ok _ => isFalse (fun hc => Except.noConfusion hc)

/-- Function `get_master_from_sentinel` from main.rs, lines 41–64. Its network
round-trip `query::<Vec<String>>(connection)` is abstracted as the
`queryResult` input: `.error e` when the transport fails, `.ok response`
when a string-list reply arrives. The reply handling is translated
verbatim: arity check, then `response[1].parse::<u16>()`. -/
def get_master_from_sentinel (queryResult : Except String (List String)) :
    Except Error RedisAddr :=
  match queryResult with
  | .error redis_err => .error (.RedisErr redis_err)
  | .ok response =>
    if response.length ≠ 2 then
      .error (.InvalidResponse "Response did not have exactly 2 elements!")
    else
      match parse_u16 response[1]! with
      | some p => .ok (response[0]!, p)
      | none => .error (.InvalidResponse "Port is invalid")

/-- The `redis::ControlFlow` type as used by the subscription handler (the `Break`
payload is irrelevant here: the handler only ever returns `Continue`). -/
inductive ControlFlow
  | Continue
  | Break
deriving DecidableEq

/-- The log lines the subscription handler can emit, kept as structured
events instead of formatted strings. -/
inductive LogEvent
  /-- The error line reporting an invalid switch-master event with its segments. -/
  | invalidEvent (segments : List String)
  /-- The informational line reporting a master change for a group we do not track. -/
  | notInterested (affected_master : String)
deriving DecidableEq

/-- Observable outcome of one invocation of the `+switch-master`
subscription closure: either it returns a `ControlFlow` having published
`published` to the channel and logged `logs`, or it panics (an `unwrap`
failure), killing the owning thread. -/
inductive HandlerResult
  | ok (published : List RedisAddr) (logs : List LogEvent) (flow : ControlFlow)
  | panicked
deriving DecidableEq

/-- The body of the subscription closure in `listen_for_master_switches`
(main.rs lines 81–104), translated statement by statement: split the
payload on ASCII whitespace; fewer than 5 segments → log and continue;
first segment differs from the configured master name → log and continue;
otherwise `segments[4].parse::<u16>().unwrap()` (panic on failure) and
send `(segments[3], port)` on the channel. `sender.send(...).unwrap()`
cannot panic because the receiver lives in `main`, which never returns. -/
def handle_switch_master_msg (master_name : String) (payload : String) :
    HandlerResult :=
  let segments := splitAsciiWhitespace payload
  if segments.length < 5 then
    .ok [] [.invalidEvent segments] .Continue
  else
    let affected_master := segments[0]!
    if master_name ≠ affected_master then
      .ok [] [.notInterested affected_master] .Continue
    else
      match parse_u16 segments[4]! with
      | some port => .ok [(segments[3]!, port)] [] .Continue
      | none => .panicked

/-- Observable effects of one iteration of the `poll_master_address` loop
body (main.rs lines 121–138): whether a connection was acquired, the
addresses sent on the channel, and whether `thread::sleep(poll_interval)`
ran before the next iteration. -/
structure PollIteration where
  connected : Bool
  published : List RedisAddr
  slept : Bool
deriving DecidableEq

/-- One iteration of the `poll_master_address` loop. The environment is
`connResult`: `none` when `client.get_connection()` fails (the code logs
and `continue`s immediately), `some queryResult` when a connection is
acquired, `queryResult` being the transport outcome fed to
`get_master_from_sentinel`. On `Ok` the address is sent; on `Err` the
error is logged; in both cases the iteration ends with the sleep. -/
def poll_iteration (connResult : Option (Except String (List String))) :
    PollIteration :=
  match connResult with
  | none => ⟨false, [], false⟩
  | some queryResult =>
    match get_master_from_sentinel queryResult with
    | .ok master => ⟨true, [master], true⟩
    | .error _ => ⟨true, [], true⟩

/-- One turn of the reconciler loop in `main` (lines 191–202): the
materializer invocations it performs given the outcome of `rx.recv()`
(`.error` = `RecvError`, logged and skipped; `.ok addr` = materialized). -/
def reconciler_step (recvResult : Except String RedisAddr) : List RedisAddr :=
  match recvResult with
  | .ok addr => [addr]
  | .error _ => []

/-- The sequence of materializer invocations the reconciler loop performs
across a sequence of `rx.recv()` outcomes, in order. -/
def reconciler_run : List (Except String RedisAddr) → List RedisAddr
  | [] => []
  | r :: rest => reconciler_step r ++ reconciler_run rest

/-- The externally observable startup actions of `main`, in program order. -/
inductive MainEvent
  /-- Event: `materialize_service` was invoked with `addr`. -/
  | materialized (addr : RedisAddr)
  /-- Event: `listen_for_master_switches` spawned its thread. -/
  | spawnedListener
  /-- Event: `poll_master_address` spawned its thread. -/
  | spawnedPoller
deriving DecidableEq

/-- How `main` (lines 155–202) leaves its startup phase. -/
inductive MainOutcome
  /-- Outcome when `args.len() != 4`: usage printed, `ExitCode::FAILURE` returned. -/
  | usageFailure
  /-- An `unwrap` panicked: `args[3].parse::<u64>()`, `Client::open`, or
  `client.get_connection()` failed. The process dies with a nonzero code. -/
  | panicked
  /-- The initial `get_master_from_sentinel` returned `Err`:
  `ExitCode::FAILURE` returned. -/
  | initialQueryFailure
  /-- Startup succeeded with the given initial master; `main` enters the
  reconciler loop and never returns. -/
  | running (initial : RedisAddr)
deriving DecidableEq

/-- True for every outcome in which the process exits with a failure code
(an explicit `ExitCode::FAILURE` or the nonzero exit of a panic). -/
def MainOutcome.isFailureExit : MainOutcome → Bool
  | .usageFailure => true
  | .panicked => true
  | .initialQueryFailure => true
  | .running _ => false

/-- Result of the startup phase of `main`: the events performed, in order,
and the outcome. -/
structure MainStart where
  events : List MainEvent
  outcome : MainOutcome
deriving DecidableEq

/-- The startup phase of `main` (lines 155–189), translated in program
order. `args` is `env::args()` including the program name at index 0.
The environment is `connect`: `none` when `Client::open(..).unwrap()` or
`client.get_connection().unwrap()` panics, `some queryResult` when a
connection is obtained, `queryResult` being the transport outcome of the
initial query. On success, `materialize_service(&initial_master)` runs
before the two producer threads are spawned. -/
def main_startup (args : List String)
    (connect : Option (Except String (List String))) : MainStart :=
  if args.length ≠ 4 then ⟨[], .usageFailure⟩
  else
    match parse_u64 args[3]! with
    | none => ⟨[], .panicked⟩
    | some _ =>
      match connect with
      | none => ⟨[], .panicked⟩
      | some queryResult =>
        match get_master_from_sentinel queryResult with
        | .error _ => ⟨[], .initialQueryFailure⟩
        | .ok initial_master =>
          ⟨[.materialized initial_master, .spawnedListener, .spawnedPoller],
           .running initial_master⟩

/-- What a blocking `std::sync::mpsc::Receiver::recv` can observe, given
the channel state: it yields the head of the queue when one is buffered,
returns `Err(RecvError)` only when the queue is empty and every `Sender`
has been dropped, and otherwise blocks for a later send or disconnect. -/
inductive RecvOutcome
  | received (addr : RedisAddr)
  | blocked
  | disconnected
deriving DecidableEq

/-- The `std::sync::mpsc` receive semantics over an explicit channel state:
`liveSenders` counts the `Sender` clones not yet dropped, `queue` the
buffered messages. -/
def recv_outcome (liveSenders : Nat) (queue : List RedisAddr) : RecvOutcome :=
  match queue with
  | addr :: _ => .received addr
  | [] => if liveSenders = 0 then .disconnected else .blocked

/-- The number of live `Sender`s for the update channel during the
reconciler loop of `main`: `tx` itself stays alive in the scope of `main` for
the whole (infinite) loop, and `tx.clone()` was handed to each producer
thread, alive exactly while that thread runs (lines 181–190). -/
def main_live_senders (listenerRunning pollerRunning : Bool) : Nat :=
  1 + (if listenerRunning then 1 else 0) + (if pollerRunning then 1 else 0)

end SentinelController

namespace SentinelController

/-- Sanity example: spec scenario 1. -/
example : get_master_from_sentinel (.ok ["10.0.0.5", "6380"]) =
    .ok ("10.0.0.5", 6380) := by decide

/-- Sanity example: spec scenario 2. -/
example : get_master_from_sentinel (.ok ["10.0.0.5"]) =
    .error (.InvalidResponse "Response did not have exactly 2 elements!") := by
  decide

/-- Sanity example: spec scenario 3. -/
example : handle_switch_master_msg "mymaster" "mymaster 10.0.0.1 6379 10.0.0.9 6380" =
    .ok [("10.0.0.9", 6380)] [] .Continue := by decide

/-- Sanity example: spec scenario 4. -/
example : handle_switch_master_msg "mymaster" "othermaster 10.0.0.1 6379 10.0.0.9 6380" =
    .ok [] [.notInterested "othermaster"] .Continue := by decide

/-- C1: a notification whose first whitespace-separated token equals the
configured master group name, with at least 5 tokens and `tokens[4]`
parsing as a `u16`, makes the subscription handler publish exactly one
entry, `(tokens[3], parse(tokens[4]))`, and return `Continue`. -/
theorem c1_matching_notification_publishes_once
    (master payload : String) (port : Nat)
    (h5 : 5 ≤ (splitAsciiWhitespace payload).length)
    (h0 : (splitAsciiWhitespace payload)[0]! = master)
    (hp : parse_u16 ((splitAsciiWhitespace payload)[4]!) = some port) :
    handle_switch_master_msg master payload =
      .ok [((splitAsciiWhitespace payload)[3]!, port)] [] .Continue := by
  have hlt : ¬ (splitAsciiWhitespace payload).length < 5 := Nat.not_lt.mpr h5
  have hne : ¬ master ≠ (splitAsciiWhitespace payload)[0]! := by
    rw [h0]
    exact fun hc => hc rfl
  simp [handle_switch_master_msg, hlt, hne, hp]

/-- Witness for C1: spec scenario 3 discharges every hypothesis. -/
theorem c1_witness :
    handle_switch_master_msg "mymaster" "mymaster 10.0.0.1 6379 10.0.0.9 6380" =
      .ok [((splitAsciiWhitespace "mymaster 10.0.0.1 6379 10.0.0.9 6380")[3]!, 6380)]
        [] .Continue :=
  c1_matching_notification_publishes_once "mymaster"
    "mymaster 10.0.0.1 6379 10.0.0.9 6380" 6380 (by decide) (by decide) (by decide)

/-- C2 (code bug evidence): on a matching notification whose `tokens[4]` is
not a valid `u16`, the handler panics (`segments[4].parse().unwrap()`),
killing the subscriber thread — it does not log-and-discard as the
specified policy requires, and in particular no entry is published. -/
theorem c2_unparsable_port_panics :
    handle_switch_master_msg "mymaster" "mymaster 10.0.0.1 6379 10.0.0.9 x" =
      .panicked := by decide

/-- C3: a two-element string reply `[host, portString]` with `portString`
parsing as a `u16` makes `get_master_from_sentinel` return exactly
`Ok (host, port)`. -/
theorem c3_two_element_reply_ok (host portStr : String) (port : Nat)
    (hp : parse_u16 portStr = some port) :
    get_master_from_sentinel (.ok [host, portStr]) = .ok (host, port) := by
  simp [get_master_from_sentinel, hp]

/-- Witness for C3: spec scenario 1 discharges the hypothesis. -/
theorem c3_witness :
    get_master_from_sentinel (.ok ["10.0.0.5", "6380"]) = .ok ("10.0.0.5", 6380) :=
  c3_two_element_reply_ok "10.0.0.5" "6380" 6380 (by decide)

/-- C4: over all string-list replies, `get_master_from_sentinel` fails with
`InvalidResponse` if and only if the reply does not have exactly two
elements or its second element does not parse as a `u16`. Since the
function returns a single `Except` value, an `InvalidResponse` outcome
excludes producing any address. -/
theorem c4_invalid_response_iff (response : List String) :
    (∃ msg, get_master_from_sentinel (.ok response) =
        .error (.InvalidResponse msg)) ↔
      (response.length ≠ 2 ∨ parse_u16 response[1]! = none) := by
  unfold get_master_from_sentinel
  by_cases h2 : response.length = 2
  · cases hp : parse_u16 response[1]! <;> simp [h2, hp]
  · simp [h2]

/-- C5: a notification with fewer than 5 tokens, or whose first token
differs from the configured group name, is discarded: the handler
publishes nothing, emits a log event, and returns `Continue`. -/
theorem c5_non_matching_notification_discarded (master payload : String)
    (h : (splitAsciiWhitespace payload).length < 5 ∨
         (splitAsciiWhitespace payload)[0]! ≠ master) :
    handle_switch_master_msg master payload =
        .ok [] [.invalidEvent (splitAsciiWhitespace payload)] .Continue ∨
      handle_switch_master_msg master payload =
        .ok [] [.notInterested ((splitAsciiWhitespace payload)[0]!)] .Continue := by
  by_cases h5 : (splitAsciiWhitespace payload).length < 5
  · left
    simp [handle_switch_master_msg, h5]
  · right
    rcases h with h | h0
    · exact absurd h h5
    · have h0' : master ≠ (splitAsciiWhitespace payload)[0]! := Ne.symm h0
      simp [handle_switch_master_msg, h5, h0']

/-- Witness for C5: spec scenario 4 discharges the hypothesis. -/
theorem c5_witness :
    handle_switch_master_msg "mymaster" "othermaster 10.0.0.1 6379 10.0.0.9 6380" =
        .ok []
          [.invalidEvent
            (splitAsciiWhitespace "othermaster 10.0.0.1 6379 10.0.0.9 6380")]
          .Continue ∨
      handle_switch_master_msg "mymaster" "othermaster 10.0.0.1 6379 10.0.0.9 6380" =
        .ok []
          [.notInterested
            ((splitAsciiWhitespace "othermaster 10.0.0.1 6379 10.0.0.9 6380")[0]!)]
          .Continue :=
  c5_non_matching_notification_discarded "mymaster"
    "othermaster 10.0.0.1 6379 10.0.0.9 6380" (by decide)

/-- C6: a poll iteration sleeps exactly when a connection was acquired: a
failed connection restarts immediately with no sleep and publishes
nothing, while a connected iteration sleeps regardless of the query
outcome and publishes the address exactly on success. -/
theorem c6_poll_sleeps_iff_connected :
    (∀ connResult, (poll_iteration connResult).slept = connResult.isSome) ∧
    poll_iteration none = ⟨false, [], false⟩ ∧
    (∀ queryResult, (poll_iteration (some queryResult)).published =
        (get_master_from_sentinel queryResult).toOption.toList) := by
  refine ⟨?_, rfl, ?_⟩
  · intro connResult
    cases connResult with
    | none => rfl
    | some q => cases hq : get_master_from_sentinel q <;> simp [poll_iteration, hq]
  · intro q
    cases hq : get_master_from_sentinel q <;>
      simp [poll_iteration, hq, Except.toOption]

/-- C7: the reconciler is stateless — its materializer invocations over a
stream of receive outcomes are the concatenation of the per-message
invocations, each `Ok addr` invokes the materializer with `addr`
unconditionally, and two identical published addresses yield two separate
invocations. -/
theorem c7_reconciler_no_dedup :
    (∀ xs ys, reconciler_run (xs ++ ys) = reconciler_run xs ++ reconciler_run ys) ∧
    (∀ addr : RedisAddr, reconciler_step (.ok addr) = [addr]) ∧
    (∀ addr : RedisAddr, reconciler_run [.ok addr, .ok addr] = [addr, addr]) := by
  refine ⟨?_, fun _ => rfl, fun _ => rfl⟩
  intro xs ys
  induction xs with
  | nil => rfl
  | cons r rest ih => simp [reconciler_run, ih]

/-- C8: a malformed invocation (wrong argument count or unparsable poll
interval) or a failed initial query makes `main` exit with a failure code
without spawning either producer thread. -/
theorem c8_startup_failure_before_spawn (args : List String)
    (connect : Option (Except String (List String)))
    (h : args.length ≠ 4 ∨ parse_u64 args[3]! = none ∨
         ∃ q e, connect = some q ∧ get_master_from_sentinel q = .error e) :
    (main_startup args connect).outcome.isFailureExit = true ∧
    MainEvent.spawnedListener ∉ (main_startup args connect).events ∧
    MainEvent.spawnedPoller ∉ (main_startup args connect).events := by
  by_cases h4 : args.length = 4
  · cases hp : parse_u64 args[3]! with
    | none => simp [main_startup, MainOutcome.isFailureExit, h4, hp]
    | some n =>
      cases connect with
      | none => simp [main_startup, MainOutcome.isFailureExit, h4, hp]
      | some q =>
        cases hq : get_master_from_sentinel q with
        | error e => simp [main_startup, MainOutcome.isFailureExit, h4, hp, hq]
        | ok m =>
          exfalso
          rcases h with h | h | ⟨q', e, hc, hq'⟩
          · exact h h4
          · rw [hp] at h
            exact Option.noConfusion h
          · injection hc with hqq
            rw [← hqq, hq] at hq'
            exact Except.noConfusion hq'
  · simp [main_startup, MainOutcome.isFailureExit, h4]

/-- Witness for C8: spec scenario 5 (two positional arguments, so three
entries in `env::args()`) discharges the hypothesis. -/
theorem c8_witness :
    (main_startup ["prog", "10.0.0.1:26379", "mymaster"] none).outcome.isFailureExit
        = true ∧
    MainEvent.spawnedListener ∉
      (main_startup ["prog", "10.0.0.1:26379", "mymaster"] none).events ∧
    MainEvent.spawnedPoller ∉
      (main_startup ["prog", "10.0.0.1:26379", "mymaster"] none).events :=
  c8_startup_failure_before_spawn ["prog", "10.0.0.1:26379", "mymaster"] none
    (Or.inl (by decide))

/-- C9: whenever startup succeeds, `main` materializes the initial query
result exactly once, and does so before spawning either producer thread:
the startup event trace is exactly
`[materialized initial, spawnedListener, spawnedPoller]`. -/
theorem c9_initial_materialize_before_spawn (args : List String)
    (connect : Option (Except String (List String))) (initial : RedisAddr)
    (h : (main_startup args connect).outcome = .running initial) :
    (main_startup args connect).events =
      [.materialized initial, .spawnedListener, .spawnedPoller] := by
  by_cases h4 : args.length = 4
  · cases hp : parse_u64 args[3]! with
    | none => simp [main_startup, h4, hp] at h
    | some n =>
      cases connect with
      | none => simp [main_startup, h4, hp] at h
      | some q =>
        cases hq : get_master_from_sentinel q with
        | error e => simp [main_startup, h4, hp, hq] at h
        | ok m =>
          simp only [main_startup, h4] at h ⊢
          simp [hp, hq] at h ⊢
          exact h
  · simp [main_startup, h4] at h

/-- Witness for C9: a successful startup at concrete arguments. -/
theorem c9_witness :
    (main_startup ["prog", "10.0.0.1:26379", "mymaster", "5"]
        (some (.ok ["10.0.0.5", "6380"]))).events =
      [.materialized ("10.0.0.5", 6380), .spawnedListener, .spawnedPoller] :=
  c9_initial_materialize_before_spawn ["prog", "10.0.0.1:26379", "mymaster", "5"]
    (some (.ok ["10.0.0.5", "6380"])) ("10.0.0.5", 6380) (by decide)

/-- C10: with the `tx` owned by `main` alive for the whole reconciler loop, the
channel always has at least one live sender, so `rx.recv()` can never
observe the all-senders-dropped disconnection — even if both producer
threads have terminated. The error branch of the receive is unreachable. -/
theorem c10_recv_error_branch_unreachable :
    ∀ (listenerRunning pollerRunning : Bool) (queue : List RedisAddr),
      recv_outcome (main_live_senders listenerRunning pollerRunning) queue ≠
        .disconnected := by
  intro l p queue
  cases queue with
  | cons a rest => simp [recv_outcome]
  | nil => cases l <;> cases p <;> decide

end SentinelController
